import Mathlib

/-!
Shallow embedding of the observability-commons policy core: configuration
resolution (`config.Config.Ensure`), mode-to-sink routing for the logging and
metrics pillars, the log-field merge (`generateOTLPFields`), the MD5-based
stack-trace digest (`util.MD5Hash`), and the facade shutdown sequence.
Machine integers are modelled as `Int`/`Nat` with explicit reductions modulo
powers of two where the fixed-width arithmetic of Go matters (the MD5 compression
function works modulo 2^32).
-/

namespace Obs

/-! ## package config: mode enumeration (mode.go)

Go declares `type Mode int8` with `Noop Mode = iota - 1`, so the named
constants are Noop = -1, Local = 0, Debug = 1, Development = 2, Production = 3.
A `Mode` value is any machine integer, so invalid modes are representable. -/

namespace config

def Noop : Int := -1

def Local : Int := 0

def Debug : Int := 1

def Development : Int := 2

def Production : Int := 3

end config

/-! ## package config: Config and Ensure (config.go) -/

structure Service where
  Name : String
  Version : String
deriving DecidableEq, Repr

/-- Values of the Go type map string to string: association lists with pairwise distinct
keys; iteration order inside one map is arbitrary but keys are unique. -/
structure Config where
  Service : Service
  Mode : Int
  SearchIndex : String
  FlushInterval : Int
  Timeout : Int
  Port : String
  DefaultFields : Option (List (String × String))
  hostname : String
deriving DecidableEq, Repr

/-- The distinct failure cases of `Config.Ensure`: the spec taxonomy names
them InvalidConfiguration ("app not configured"), InvalidMode
("invalid log mode") and HostnameResolutionError. -/
inductive ConfigError where
  | invalidConfiguration
  | invalidMode
  | hostnameError
deriving DecidableEq, Repr

/-- Embedding of `Config.Ensure` from config.go. The one effect, `os.Hostname()`, is
modelled by the ambient parameter `osHostname` (the successful result of the
OS call, stable for the lifetime of a process); the `HostnameResolutionError`
branch is environmental and outside the claims settled here. -/
def Config.Ensure (osHostname : String) (cfg : Config) : Except ConfigError Config :=
  if cfg.Service.Name = "" ∨ cfg.Service.Version = "" then
    .error .invalidConfiguration
  else if ¬ (cfg.Mode = config.Noop ∨ cfg.Mode = config.Local ∨ cfg.Mode = config.Debug ∨
      cfg.Mode = config.Development ∨ cfg.Mode = config.Production) then
    .error .invalidMode
  else
    let cfg := if cfg.SearchIndex = "" then { cfg with SearchIndex := cfg.Service.Name } else cfg
    let cfg := if cfg.FlushInterval ≤ 0 then { cfg with FlushInterval := 30 } else cfg
    let cfg := if cfg.Timeout ≤ 0 then { cfg with Timeout := 10 } else cfg
    let cfg := if cfg.Port = "" then { cfg with Port := "80" } else cfg
    .ok { cfg with hostname := osHostname }

def Config.GetHostname (cfg : Config) : String :=
  cfg.hostname

/-- Embedding of `Config.GetSearchIndex` from config.go, including its redundant branch on
`Development` mode (both branches return the stored field). -/
def Config.GetSearchIndex (cfg : Config) : String :=
  if cfg.Mode = config.Development then
    cfg.SearchIndex
  else
    cfg.SearchIndex

/-! ## package util: MD5Hash (hash.go)

`util.MD5Hash` feeds the bytes through `crypto/md5` and prints the 16-byte
digest with `fmt.Sprintf("%x", ...)`, i.e. as 32 lowercase hexadecimal
characters. The MD5 compression function (RFC 1321) is embedded over `Nat`
with explicit reductions modulo 2^32. -/

namespace util

def w32 (n : Nat) : Nat := n % 4294967296

/-- 32-bit complement: xor with 0xFFFFFFFF. -/
def compl32 (x : Nat) : Nat := x ^^^ 4294967295

/-- 32-bit left rotation (operands are < 2^32). -/
def rotl32 (x s : Nat) : Nat := ((x <<< s) % 4294967296) ||| (x >>> (32 - s))

def md5F (b c d : Nat) : Nat := (b &&& c) ||| (compl32 b &&& d)

def md5G (b c d : Nat) : Nat := (d &&& b) ||| (compl32 d &&& c)

def md5H (b c d : Nat) : Nat := b ^^^ c ^^^ d

def md5I (b c d : Nat) : Nat := c ^^^ (b ||| compl32 d)

/-- The 64 sine-derived round constants of RFC 1321. -/
def md5K : List Nat :=
  [0xd76aa478, 0xe8c7b756, 0x242070db, 0xc1bdceee,
   0xf57c0faf, 0x4787c62a, 0xa8304613, 0xfd469501,
   0x698098d8, 0x8b44f7af, 0xffff5bb1, 0x895cd7be,
   0x6b901122, 0xfd987193, 0xa679438e, 0x49b40821,
   0xf61e2562, 0xc040b340, 0x265e5a51, 0xe9b6c7aa,
   0xd62f105d, 0x02441453, 0xd8a1e681, 0xe7d3fbc8,
   0x21e1cde6, 0xc33707d6, 0xf4d50d87, 0x455a14ed,
   0xa9e3e905, 0xfcefa3f8, 0x676f02d9, 0x8d2a4c8a,
   0xfffa3942, 0x8771f681, 0x6d9d6122, 0xfde5380c,
   0xa4beea44, 0x4bdecfa9, 0xf6bb4b60, 0xbebfbc70,
   0x289b7ec6, 0xeaa127fa, 0xd4ef3085, 0x04881d05,
   0xd9d4d039, 0xe6db99e5, 0x1fa27cf8, 0xc4ac5665,
   0xf4292244, 0x432aff97, 0xab9423a7, 0xfc93a039,
   0x655b59c3, 0x8f0ccc92, 0xffeff47d, 0x85845dd1,
   0x6fa87e4f, 0xfe2ce6e0, 0xa3014314, 0x4e0811a1,
   0xf7537e82, 0xbd3af235, 0x2ad7d2bb, 0xeb86d391]

/-- The 64 per-round left-rotation amounts of RFC 1321. -/
def md5S : List Nat :=
  [7, 12, 17, 22, 7, 12, 17, 22, 7, 12, 17, 22, 7, 12, 17, 22,
   5, 9, 14, 20, 5, 9, 14, 20, 5, 9, 14, 20, 5, 9, 14, 20,
   4, 11, 16, 23, 4, 11, 16, 23, 4, 11, 16, 23, 4, 11, 16, 23,
   6, 10, 15, 21, 6, 10, 15, 21, 6, 10, 15, 21, 6, 10, 15, 21]

/-- Little-endian 32-bit word number `j` of a 64-byte chunk. -/
def leWord (chunk : List Nat) (j : Nat) : Nat :=
  chunk.getD (4 * j) 0 + 256 * chunk.getD (4 * j + 1) 0 +
    65536 * chunk.getD (4 * j + 2) 0 + 16777216 * chunk.getD (4 * j + 3) 0

def md5Round (chunk : List Nat) (st : Nat × Nat × Nat × Nat) (i : Nat) :
    Nat × Nat × Nat × Nat :=
  let a := st.1
  let b := st.2.1
  let c := st.2.2.1
  let d := st.2.2.2
  let fg : Nat × Nat :=
    if i < 16 then (md5F b c d, i)
    else if i < 32 then (md5G b c d, (5 * i + 1) % 16)
    else if i < 48 then (md5H b c d, (3 * i + 5) % 16)
    else (md5I b c d, (7 * i) % 16)
  let f := w32 (fg.1 + a + md5K.getD i 0 + leWord chunk fg.2)
  (d, w32 (b + rotl32 f (md5S.getD i 0)), b, c)

def md5Block (st : Nat × Nat × Nat × Nat) (chunk : List Nat) : Nat × Nat × Nat × Nat :=
  let r := (List.range 64).foldl (md5Round chunk) st
  (w32 (st.1 + r.1), w32 (st.2.1 + r.2.1), w32 (st.2.2.1 + r.2.2.1), w32 (st.2.2.2 + r.2.2.2))

/-- One byte of input: extend the pending buffer, compressing whenever a full
64-byte chunk has accumulated. -/
def md5Absorb (acc : (Nat × Nat × Nat × Nat) × List Nat) (b : Nat) :
    (Nat × Nat × Nat × Nat) × List Nat :=
  let buf := acc.2 ++ [b]
  if buf.length = 64 then (md5Block acc.1 buf, []) else (acc.1, buf)

/-- Process a byte sequence whose length is a multiple of 64 in 64-byte
chunks (the padded message always is). -/
def md5Loop (st : Nat × Nat × Nat × Nat) (bs : List Nat) : Nat × Nat × Nat × Nat :=
  (bs.foldl md5Absorb (st, [])).1

/-- Merkle–Damgård padding: append 0x80, zero bytes up to 56 mod 64, then the
bit length as a little-endian 64-bit quantity. -/
def md5Pad (msg : List Nat) : List Nat :=
  let zeros := (120 - (msg.length + 1) % 64) % 64
  let bitLen := 8 * msg.length % 18446744073709551616
  msg ++ [128] ++ List.replicate zeros 0 ++
    [bitLen % 256, bitLen / 256 % 256, bitLen / 65536 % 256, bitLen / 16777216 % 256,
     bitLen / 4294967296 % 256, bitLen / 1099511627776 % 256,
     bitLen / 281474976710656 % 256, bitLen / 72057594037927936 % 256]

/-- Serialize one 32-bit state word as four little-endian bytes. -/
def wordLEBytes (x : Nat) : List Nat :=
  [x % 256, x / 256 % 256, x / 65536 % 256, x / 16777216 % 256]

/-- The 16-byte MD5 digest of a byte sequence (`md5.Sum`). -/
def md5Sum (msg : List Nat) : List Nat :=
  let st := md5Loop (0x67452301, 0xefcdab89, 0x98badcfe, 0x10325476) (md5Pad msg)
  wordLEBytes st.1 ++ wordLEBytes st.2.1 ++ wordLEBytes st.2.2.1 ++ wordLEBytes st.2.2.2

def hexChars : List Char := "0123456789abcdef".data

def hexDigit (n : Nat) : Char := hexChars.getD n '0'

/-- Rendering of one byte under the x format verb: two lowercase hex digits, leading zero kept. -/
def byteToHex (b : Nat) : List Char := [hexDigit (b / 16 % 16), hexDigit (b % 16)]

/-- Rendering of a whole byte slice under the x format verb of fmt.Sprintf. -/
def bytesToHex (bs : List Nat) : String := ⟨(bs.map byteToHex).flatten⟩

/-- Embedding of `util.MD5Hash` from hash.go, over the byte content. -/
def MD5Hash (data : List Nat) : String := bytesToHex (md5Sum data)

/-- Byte-slice conversion of a Go string: its UTF-8 bytes, one code point at a time. -/
def encodeChar (c : Char) : List Nat :=
  let n := c.toNat
  if n < 128 then [n]
  else if n < 2048 then [192 + n / 64, 128 + n % 64]
  else if n < 65536 then [224 + n / 4096, 128 + n / 64 % 64, 128 + n % 64]
  else [240 + n / 262144, 128 + n / 4096 % 64, 128 + n / 64 % 64, 128 + n % 64]

def strBytes (s : String) : List Nat := (s.data.map encodeChar).flatten

/-- Composition of `util.MD5Hash` with the byte-slice conversion, as the call sites use it. -/
def MD5HashStr (s : String) : String := MD5Hash (strBytes s)

end util

/-! ## package log: Entry (model.go) and OTLPLogger (otlp_logger.go) -/

namespace log

/-- Embedding of `log.Entry` from model.go. `Err` carries the message of the error (what
`zap.Error` renders); `stacktrace` and `stacktraceHash` are the unexported
fields, zero-valued on construction. -/
structure Entry where
  Component : String
  Operation : String
  Message : String
  Err : Option String
  Fields : List (String × String)
  stacktrace : String := ""
  stacktraceHash : Option String := none
deriving DecidableEq, Repr

/-- The sinks `NewOTLPLogger` can hand to `zapcore.AddSync`. In Go,
`os.NewFile(fd, name)` wraps an *existing* descriptor under the given name
(it opens nothing), and `os.Stdout` is `NewFile(1, "/dev/stdout")`. -/
inductive WriteTarget where
  | fdFile (fd : Nat) (name : String)
deriving DecidableEq, Repr

def osStdout : WriteTarget := .fdFile 1 "/dev/stdout"

/-- The write target selected by the `switch cfg.Mode` in `NewOTLPLogger`:
Noop wraps descriptor 0 under the name `os.DevNull`; Local and the three
collector modes all use `os.Stdout`; anything else is the error return. -/
def newOTLPLoggerTarget (mode : Int) : Except String WriteTarget :=
  if mode = config.Noop then .ok (.fdFile 0 "/dev/null")
  else if mode = config.Local then .ok osStdout
  else if mode = config.Debug ∨ mode = config.Development ∨ mode = config.Production then
    .ok osStdout
  else .error "unknown mode"

/-- Embedding of `generateOTLPFields` from otlp_logger.go: the ordered zap field list —
fixed resource/context attributes, then the error attribute (when an error is
present), then the stack trace digest and raw trace (when a trace was
captured), then the call-site fields, then the process default fields.
`now` stands for `time.Now()` rendered into the `timestamp` field. -/
def generateOTLPFields (cfg : Config) (now : String) (logEntry : Entry) :
    List (String × String) :=
  let fields := [("service.name", cfg.Service.Name),
                 ("service.version", cfg.Service.Version),
                 ("host.name", cfg.GetHostname),
                 ("component", logEntry.Component),
                 ("operation", logEntry.Operation),
                 ("timestamp", now)]
  let fields := match logEntry.Err with
    | some e => fields ++ [("error", e)]
    | none => fields
  let fields := if logEntry.stacktrace ≠ "" then
      fields ++ [("stacktrace.hash", util.MD5HashStr logEntry.stacktrace),
                 ("stacktrace", logEntry.stacktrace)]
    else fields
  let fields := fields ++ logEntry.Fields
  match cfg.DefaultFields with
  | some dfs => fields ++ dfs
  | none => fields

/-- Field list produced by `OTLPLogger.Debug`: the entry is passed through
unchanged (no stack capture). -/
def otlpDebugFields (cfg : Config) (now : String) (logEntry : Entry) :
    List (String × String) :=
  generateOTLPFields cfg now logEntry

/-- Field list produced by `OTLPLogger.Info`: the entry is passed through
unchanged (no stack capture). -/
def otlpInfoFields (cfg : Config) (now : String) (logEntry : Entry) :
    List (String × String) :=
  generateOTLPFields cfg now logEntry

/-- Field list produced by `OTLPLogger.Warn`: the method first stores
`debug.Stack()` (the `capturedStack` parameter, never empty at runtime) into
the stacktrace field of the entry. -/
def otlpWarnFields (cfg : Config) (now capturedStack : String) (logEntry : Entry) :
    List (String × String) :=
  generateOTLPFields cfg now { logEntry with stacktrace := capturedStack }

/-- Field list produced by `OTLPLogger.Error` (same stack capture as Warn). -/
def otlpErrorFields (cfg : Config) (now capturedStack : String) (logEntry : Entry) :
    List (String × String) :=
  generateOTLPFields cfg now { logEntry with stacktrace := capturedStack }

/-- Field list produced by `OTLPLogger.Fatal` (same stack capture as Warn). -/
def otlpFatalFields (cfg : Config) (now capturedStack : String) (logEntry : Entry) :
    List (String × String) :=
  generateOTLPFields cfg now { logEntry with stacktrace := capturedStack }

end log

/-- The `log.Entry` literal each facade logging method builds
(observability.go): exported fields from the call, unexported fields left at
their zero values. -/
def facadeEntry (component operation message : String) (err : Option String)
    (fields : List (String × String)) : log.Entry :=
  { Component := component, Operation := operation, Message := message,
    Err := err, Fields := fields }

/-- The value a consumer of the emitted record observes for a key: zap encodes
the fields in list order and, for a duplicated key, the occurrence emitted
last is the one that takes effect. -/
def mergedValue (fields : List (String × String)) (key : String) : Option String :=
  fields.foldl (fun acc p => if p.1 = key then some p.2 else acc) none

/-! ## package metrics: endpoint routing (client.go) and NewOtelMeter (metrics.go) -/

namespace metrics

def prodEndpoint : String := "otel-collector.garden.internal"

def devEndpoint : String := "localhost:4317"

def debugEndpoint : String := "localhost:4317"

/-- Embedding of `endpoint` from metrics/client.go: the gRPC endpoint handed to
`otlpmetricgrpc.WithEndpoint`; `fmt.Sprintf("%s:%s", prodEndpoint, port)`
is host-joined-with-port. -/
def endpoint (mode : Int) (port : String) : String :=
  if mode = config.Debug then debugEndpoint
  else if mode = config.Development then devEndpoint
  else if mode = config.Production then prodEndpoint ++ ":" ++ port
  else ""

/-- The meter implementation `NewOtelMeter` selects per mode. -/
inductive MeterImpl where
  | noopMeter
  | stdoutMeter
  | otlpMeter (endpoint : String)
deriving DecidableEq, Repr

/-- The `switch cfg.Mode` of `NewOtelMeter` (metrics.go): Noop returns the
no-op meter of the delegate SDK immediately; Local builds the pretty-printing
stdout exporter; the three collector modes build the OTLP gRPC exporter over
`endpoint(cfg.Mode, cfg.Port)`; anything else is the error return. -/
def newOtelMeterImpl (cfg : Config) : Except String MeterImpl :=
  if cfg.Mode = config.Noop then .ok .noopMeter
  else if cfg.Mode = config.Local then .ok .stdoutMeter
  else if cfg.Mode = config.Debug ∨ cfg.Mode = config.Development ∨ cfg.Mode = config.Production then
    .ok (.otlpMeter (endpoint cfg.Mode cfg.Port))
  else .error "unknown mode"

/-- One facade metric call (`SystemMetricHistogram` / `Counter` / `Gauge`).
Histogram values are floats in Go; only the no-op behaviour is at issue here,
so the numeric payload is carried as an integer-scaled value. -/
inductive MetricCall where
  | histogram (name : String) (value : Int)
  | counter (name : String) (value : Int)
  | gauge (name : String) (value : Int)
deriving DecidableEq, Repr

/-- Modelled from the spec: the delegate SDK function `metric.NewNoopMeter` whose result
`NewOtelMeter` returns in Noop mode — its instruments always register
successfully and record nothing, so a call yields no error and emits no
output (spec: Discard routes every pillar to a null sink; nine hundred more
calls behave the same). -/
def noopMeterRecord (_ : MetricCall) : Except String (List String) := .ok []

/-- Run a sequence of metric calls against the no-op meter, collecting
emitted output and failing on the first error, as the facade surfaces
metric errors synchronously. -/
def runNoopMeterCalls : List MetricCall → Except String (List String)
  | [] => .ok []
  | c :: cs =>
    match noopMeterRecord c, runNoopMeterCalls cs with
    | .ok out, .ok outs => .ok (out ++ outs)
    | .error e, _ => .error e
    | _, .error e => .error e

end metrics

/-! ## the facade: ObservabilityClient.Close (observability.go) -/

/-- The two delegate shutdowns `Close` can perform, in execution order. -/
inductive CloseStep where
  | closeLogger
  | closeTracer
deriving DecidableEq, Repr

/-- Embedding of `ObservabilityClient.Close`: close the logger, returning its error at
once on failure; otherwise close the tracer and return its result. The
returned pair is (result, delegates actually closed, in order). -/
def clientClose (loggerErr tracerErr : Option String) : Option String × List CloseStep :=
  match loggerErr with
  | some e => (some e, [.closeLogger])
  | none =>
    match tracerErr with
    | some e => (some e, [.closeLogger, .closeTracer])
    | none => (none, [.closeLogger, .closeTracer])

end Obs

section ObsScratch

open Obs util

set_option maxRecDepth 100000 in
/-- RFC 1321 test vector, checking the embedding of `crypto/md5`. -/
example : MD5Hash (strBytes "") = "d41d8cd98f00b204e9800998ecf8427e" := by rfl

set_option maxRecDepth 100000 in
/-- RFC 1321 test vector, checking the embedding of `crypto/md5`. -/
example : MD5Hash (strBytes "abc") = "900150983cd24fb0d6963f7d28e17f72" := by rfl

end ObsScratch

section ObsTheorems

open Obs

/-- Sanity check: Ensure fills defaults exactly as config.go writes them. -/
example :
    Config.Ensure "h"
      { Service := ⟨"svc", "1.0.0"⟩, Mode := 0, SearchIndex := "", FlushInterval := 0,
        Timeout := 0, Port := "", DefaultFields := none, hostname := "" } =
      .ok { Service := ⟨"svc", "1.0.0"⟩, Mode := 0, SearchIndex := "svc", FlushInterval := 30,
            Timeout := 10, Port := "80", DefaultFields := none, hostname := "h" } := by
  rfl

/-- C9: for every configuration, GetSearchIndex returns exactly the stored
SearchIndex field, independent of the configured mode; in particular no
suffix is applied in Development mode despite the branch on it. -/
theorem getSearchIndex_is_stored_field (cfg : Config) :
    cfg.GetSearchIndex = cfg.SearchIndex := by
  unfold Config.GetSearchIndex
  split <;> rfl

/-- C3 counterexample: the metrics endpoint for Development mode is the very
same loopback collector endpoint as Debug mode — it is not a named remote
host distinct from the local loopback collector, refuting the claim at
port "80". -/
theorem metrics_endpoint_development_counterexample :
    metrics.endpoint config.Development "80" = metrics.endpoint config.Debug "80" ∧
    metrics.endpoint config.Development "80" = "localhost:4317" := by
  exact ⟨rfl, rfl⟩

/-- C3 amended: for every configured port, Debug maps to the local collector
endpoint localhost:4317, Development maps to the devEndpoint constant whose
value is also localhost:4317 (identical to the debug endpoint), and
Production maps to the production collector host joined with the configured
port. -/
theorem metrics_endpoint_routing (port : String) :
    metrics.endpoint config.Debug port = "localhost:4317" ∧
    metrics.endpoint config.Development port = "localhost:4317" ∧
    metrics.endpoint config.Production port = "otel-collector.garden.internal:" ++ port := by
  refine ⟨rfl, rfl, ?_⟩
  rfl

/-- C1 (code divergence): NewOTLPLogger binds the logging sink of
DebugCollector, DevelopmentCollector and ProductionCollector mode to
os.Stdout — the standard-output write target — not to any collector
endpoint, contradicting the policy table. -/
theorem logging_sink_collector_modes_are_stdout :
    log.newOTLPLoggerTarget config.Debug = .ok log.osStdout ∧
    log.newOTLPLoggerTarget config.Development = .ok log.osStdout ∧
    log.newOTLPLoggerTarget config.Production = .ok log.osStdout := by
  exact ⟨rfl, rfl, rfl⟩

/-- C7: Close closes the logging delegate first and then the tracing
delegate; when the logging delegate fails, Close returns exactly that error
and never attempts the tracing close; when the logging close succeeds, both
delegates are closed in order and the tracer result is returned. -/
theorem close_failfast (loggerErr tracerErr : Option String) (e : String) :
    (loggerErr = some e →
      clientClose loggerErr tracerErr = (some e, [CloseStep.closeLogger])) ∧
    (loggerErr = none →
      clientClose loggerErr tracerErr =
        (tracerErr, [CloseStep.closeLogger, CloseStep.closeTracer])) := by
  constructor
  · intro h
    subst h
    rfl
  · intro h
    subst h
    cases tracerErr <;> rfl

/-- C7 witness: concrete shutdowns, one with a failing logging delegate and
one with both delegates succeeding or the tracer failing. -/
theorem close_failfast_witness :
    clientClose (some "sync failed") (some "trace") =
      (some "sync failed", [CloseStep.closeLogger]) ∧
    clientClose none (some "trace") =
      (some "trace", [CloseStep.closeLogger, CloseStep.closeTracer]) :=
  ⟨(close_failfast (some "sync failed") (some "trace") "sync failed").1 rfl,
   (close_failfast none (some "trace") "sync failed").2 rfl⟩

/-- C5: a configuration with an empty service name or version fails
resolution with the InvalidConfiguration error; an identity-complete
configuration whose mode lies outside the five named enumeration values
fails with the InvalidMode error. In both cases the caller gets an error,
never a resolved configuration. -/
theorem ensure_validation (host : String) (cfg : Config) :
    (cfg.Service.Name = "" ∨ cfg.Service.Version = "" →
      cfg.Ensure host = .error .invalidConfiguration) ∧
    (cfg.Service.Name ≠ "" → cfg.Service.Version ≠ "" →
      cfg.Mode ∉ ([config.Noop, config.Local, config.Debug, config.Development,
        config.Production] : List Int) →
      cfg.Ensure host = .error .invalidMode) := by
  constructor
  · intro h
    unfold Config.Ensure
    rw [if_pos h]
  · intro h1 h2 h3
    have hm : ¬ (cfg.Mode = config.Noop ∨ cfg.Mode = config.Local ∨ cfg.Mode = config.Debug ∨
        cfg.Mode = config.Development ∨ cfg.Mode = config.Production) := by
      simpa using h3
    have hid : ¬ (cfg.Service.Name = "" ∨ cfg.Service.Version = "") := by
      simp [h1, h2]
    unfold Config.Ensure
    rw [if_neg hid, if_pos hm]

/-- C5 witness: a configuration missing its service name is rejected as
InvalidConfiguration, and an identity-complete configuration with mode 7 is
rejected as InvalidMode. -/
theorem ensure_validation_witness :
    Config.Ensure "h"
      { Service := ⟨"", "1.0.0"⟩, Mode := 0, SearchIndex := "", FlushInterval := 0,
        Timeout := 0, Port := "", DefaultFields := none, hostname := "" } =
      .error .invalidConfiguration ∧
    Config.Ensure "h"
      { Service := ⟨"svc", "1.0.0"⟩, Mode := 7, SearchIndex := "", FlushInterval := 0,
        Timeout := 0, Port := "", DefaultFields := none, hostname := "" } =
      .error .invalidMode :=
  ⟨(ensure_validation "h" _).1 (Or.inl rfl),
   (ensure_validation "h" _).2 (by decide) (by decide) (by decide)⟩

/-- C6: configuration resolution is idempotent — resolving an
already-resolved configuration succeeds and returns it unchanged, so the
search index, flush interval, timeout, port and hostname that the first
resolution produced (whether explicitly set or defaulted) are not
overwritten. -/
theorem ensure_idempotent (host : String) (cfg c : Config)
    (h : cfg.Ensure host = .ok c) :
    c.Ensure host = .ok c := by
  obtain ⟨⟨nm, ver⟩, mode, si, fi, tm, po, df, hn⟩ := cfg
  simp only [Config.Ensure] at h
  by_cases h1 : nm = "" ∨ ver = ""
  · simp [h1] at h
  by_cases h2 : mode = config.Noop ∨ mode = config.Local ∨ mode = config.Debug ∨
      mode = config.Development ∨ mode = config.Production
  swap
  · simp only [if_neg h1, if_pos (not_not_intro h2 ∘ not_not.mp), h2, not_false_iff,
      if_pos] at h
    simp [h2] at h
  rw [if_neg h1, if_neg (not_not_intro h2)] at h
  push_neg at h1
  obtain ⟨hnm, hver⟩ := h1
  by_cases h3 : si = "" <;> by_cases h4 : fi ≤ (0 : Int) <;>
    by_cases h5 : tm ≤ (0 : Int) <;> by_cases h6 : po = "" <;>
    simp only [h3, h4, h5, h6, if_true, if_false, ite_true, ite_false, eq_self_iff_true,
      not_true, not_false_iff, if_pos, if_neg] at h <;>
    simp only [Except.ok.injEq] at h <;>
    subst h <;>
    simp [Config.Ensure, hnm, hver, h2, h3, h4, h5, h6]

/-- C6 witness: re-resolving the concrete configuration produced by a first
successful resolution returns it unchanged. -/
theorem ensure_idempotent_witness :
    Config.Ensure "h"
      { Service := ⟨"svc", "1.0.0"⟩, Mode := 0, SearchIndex := "svc", FlushInterval := 30,
        Timeout := 10, Port := "80", DefaultFields := none, hostname := "h" } =
      .ok { Service := ⟨"svc", "1.0.0"⟩, Mode := 0, SearchIndex := "svc", FlushInterval := 30,
            Timeout := 10, Port := "80", DefaultFields := none, hostname := "h" } :=
  ensure_idempotent "h"
    { Service := ⟨"svc", "1.0.0"⟩, Mode := 0, SearchIndex := "", FlushInterval := 0,
      Timeout := 0, Port := "", DefaultFields := none, hostname := "" }
    { Service := ⟨"svc", "1.0.0"⟩, Mode := 0, SearchIndex := "svc", FlushInterval := 30,
      Timeout := 10, Port := "80", DefaultFields := none, hostname := "h" }
    (by rfl)

/-- In the emitted record, the occurrence of a key appended last is the one a
consumer observes. -/
theorem mergedValue_last (l : List (String × String)) (k v : String) :
    mergedValue (l ++ [(k, v)]) k = some v := by
  simp [mergedValue, List.foldl_append]

/-- C2 counterexample: with call-site field team=X and process default field
team=Z, generateOTLPFields appends the default field after the call-site
field, so the merged record carries team=Z — the call-site field does not
win over a process default field of the same key. -/
theorem merge_call_vs_default_counterexample :
    mergedValue
      (log.generateOTLPFields
        { Service := ⟨"svc", "1.0.0"⟩, Mode := 0, SearchIndex := "svc", FlushInterval := 30,
          Timeout := 10, Port := "80", DefaultFields := some [("team", "Z")], hostname := "h" }
        "t0" (facadeEntry "comp" "op" "msg" none [("team", "X")])) "team" = some "Z" ∧
    (some "Z" : Option String) ≠ some "X" := by
  exact ⟨rfl, by decide⟩

/-- C2 amended: call-site fields do override the fixed resource attributes —
with call field service.name=X and the computed resource attribute
service.name=Y the merged record carries X (when no process default field
reuses the key) — but process default fields are appended after call-site
fields, so on a shared key the process default field overrides the call-site
field: the precedence is process defaults over call-site fields over fixed
resource attributes. -/
theorem merge_precedence (cfg cfg2 : Config)
    (component operation message now X k Z : String)
    (hnd : cfg.DefaultFields = none)
    (hdf : cfg2.DefaultFields = some [(k, Z)]) :
    mergedValue
      (log.generateOTLPFields cfg now
        (facadeEntry component operation message none [("service.name", X)]))
      "service.name" = some X ∧
    mergedValue
      (log.generateOTLPFields cfg2 now
        (facadeEntry component operation message none [(k, X)])) k = some Z := by
  constructor
  · simp only [log.generateOTLPFields, facadeEntry, hnd]
    exact mergedValue_last _ _ _
  · simp only [log.generateOTLPFields, facadeEntry, hdf]
    exact mergedValue_last _ _ _

/-- C2 amended witness: concrete configurations exercising both halves of the
amended precedence statement. -/
theorem merge_precedence_witness :
    mergedValue
      (log.generateOTLPFields
        { Service := ⟨"Y", "1.0.0"⟩, Mode := 0, SearchIndex := "Y", FlushInterval := 30,
          Timeout := 10, Port := "80", DefaultFields := none, hostname := "h" }
        "t0" (facadeEntry "comp" "op" "msg" none [("service.name", "X")]))
      "service.name" = some "X" ∧
    mergedValue
      (log.generateOTLPFields
        { Service := ⟨"svc", "1.0.0"⟩, Mode := 0, SearchIndex := "svc", FlushInterval := 30,
          Timeout := 10, Port := "80", DefaultFields := some [("team", "Z")], hostname := "h" }
        "t0" (facadeEntry "comp" "op" "msg" none [("team", "X")])) "team" = some "Z" :=
  merge_precedence
    { Service := ⟨"Y", "1.0.0"⟩, Mode := 0, SearchIndex := "Y", FlushInterval := 30,
      Timeout := 10, Port := "80", DefaultFields := none, hostname := "h" }
    { Service := ⟨"svc", "1.0.0"⟩, Mode := 0, SearchIndex := "svc", FlushInterval := 30,
      Timeout := 10, Port := "80", DefaultFields := some [("team", "Z")], hostname := "h" }
    "comp" "op" "msg" "t0" "X" "team" "Z" rfl rfl

/-- C8 (code evaluation): in Noop mode the logging core write target the code
selects is a Go file value wrapping descriptor 0 — the standard-input
descriptor of the process — under the name /dev/null (os.NewFile opens
nothing), the meter is the delegate SDK no-op meter, and any sequence of
metric calls against the no-op meter yields no error and no output. -/
theorem noop_mode_eval (cfg : Config) (h : cfg.Mode = config.Noop)
    (calls : List metrics.MetricCall) :
    log.newOTLPLoggerTarget cfg.Mode = .ok (.fdFile 0 "/dev/null") ∧
    metrics.newOtelMeterImpl cfg = .ok .noopMeter ∧
    metrics.runNoopMeterCalls calls = .ok [] := by
  refine ⟨?_, ?_, ?_⟩
  · rw [h]
    rfl
  · unfold metrics.newOtelMeterImpl
    rw [if_pos h]
  · induction calls with
    | nil => rfl
    | cons c cs ih => simp [metrics.runNoopMeterCalls, metrics.noopMeterRecord, ih]

/-- C8 witness: a concrete Noop-mode configuration together with 1000 metric
calls: the sink wraps descriptor 0, the meter is the no-op meter, and the
1000 calls produce no error and no output. -/
theorem noop_mode_eval_witness :
    log.newOTLPLoggerTarget
      (({ Service := ⟨"svc", "1.0.0"⟩, Mode := -1, SearchIndex := "svc",
          FlushInterval := 30, Timeout := 10, Port := "80", DefaultFields := none,
          hostname := "h" } : Config).Mode) = .ok (.fdFile 0 "/dev/null") ∧
    metrics.newOtelMeterImpl
      { Service := ⟨"svc", "1.0.0"⟩, Mode := -1, SearchIndex := "svc", FlushInterval := 30,
        Timeout := 10, Port := "80", DefaultFields := none, hostname := "h" } =
      .ok .noopMeter ∧
    metrics.runNoopMeterCalls
      (List.replicate 1000 (metrics.MetricCall.counter "orders" 1)) = .ok [] :=
  noop_mode_eval
    { Service := ⟨"svc", "1.0.0"⟩, Mode := -1, SearchIndex := "svc", FlushInterval := 30,
      Timeout := 10, Port := "80", DefaultFields := none, hostname := "h" }
    rfl (List.replicate 1000 (metrics.MetricCall.counter "orders" 1))

/-- Hex-encoding a byte list yields two characters per byte. -/
theorem byteHex_length (bs : List Nat) :
    ((bs.map util.byteToHex).flatten).length = 2 * bs.length := by
  induction bs with
  | nil => rfl
  | cons b bs ih =>
    simp [util.byteToHex, ih]
    try omega

/-- The MD5 digest always serializes to 16 bytes. -/
theorem md5Sum_length (msg : List Nat) : (util.md5Sum msg).length = 16 := by
  unfold util.md5Sum
  simp [util.wordLEBytes]

/-- The rendered MD5 digest always has exactly 32 characters. -/
theorem MD5Hash_length (data : List Nat) : (util.MD5Hash data).length = 32 := by
  unfold util.MD5Hash util.bytesToHex
  show ((util.md5Sum data).map util.byteToHex).flatten.length = 32
  rw [byteHex_length, md5Sum_length]

/-- Digits below 16 are rendered from the lowercase hexadecimal alphabet. -/
theorem hexDigit_mem (n : Nat) (h : n < 16) : util.hexDigit n ∈ util.hexChars := by
  unfold util.hexDigit
  interval_cases n <;> decide

/-- Every character of a rendered MD5 digest is a lowercase hex character. -/
theorem MD5Hash_hex (data : List Nat) :
    ∀ ch ∈ (util.MD5Hash data).data, ch ∈ util.hexChars := by
  intro ch hch
  have hm : ch ∈ ((util.md5Sum data).map util.byteToHex).flatten := hch
  simp only [List.mem_flatten, List.mem_map] at hm
  obtain ⟨l, ⟨b, hb, rfl⟩, hcl⟩ := hm
  simp only [util.byteToHex, List.mem_cons, List.not_mem_nil, or_false] at hcl
  rcases hcl with h1 | h1 <;> subst h1 <;>
    exact hexDigit_mem _ (Nat.mod_lt _ (by decide))

/-- A rendered MD5 digest is never the empty string. -/
theorem MD5Hash_ne_empty (data : List Nat) : util.MD5Hash data ≠ "" := by
  intro h
  have h32 := MD5Hash_length data
  rw [h] at h32
  exact absurd h32 (by decide)

/-- C4: a Warn, Error or Fatal call (the severities that capture
debug.Stack(), whose result is never empty) attaches both the stack-trace
digest attribute and the raw captured stack trace; the digest is a non-empty
32-character lowercase-hexadecimal string; a Debug or Info call over a
facade-built entry attaches no stack-trace digest attribute. -/
theorem stacktrace_digest_by_severity
    (cfg : Config) (component operation message now stack : String)
    (err : Option String) (callFields : List (String × String))
    (hstack : stack ≠ "")
    (hcall : "stacktrace.hash" ∉ callFields.map Prod.fst)
    (hdef : "stacktrace.hash" ∉ (cfg.DefaultFields.getD []).map Prod.fst) :
    (("stacktrace.hash", util.MD5HashStr stack) ∈
        log.otlpWarnFields cfg now stack (facadeEntry component operation message err callFields) ∧
      ("stacktrace", stack) ∈
        log.otlpWarnFields cfg now stack (facadeEntry component operation message err callFields)) ∧
    (("stacktrace.hash", util.MD5HashStr stack) ∈
        log.otlpErrorFields cfg now stack (facadeEntry component operation message err callFields) ∧
      ("stacktrace", stack) ∈
        log.otlpErrorFields cfg now stack (facadeEntry component operation message err callFields)) ∧
    (("stacktrace.hash", util.MD5HashStr stack) ∈
        log.otlpFatalFields cfg now stack (facadeEntry component operation message err callFields) ∧
      ("stacktrace", stack) ∈
        log.otlpFatalFields cfg now stack (facadeEntry component operation message err callFields)) ∧
    (util.MD5HashStr stack ≠ "" ∧ (util.MD5HashStr stack).length = 32 ∧
      ∀ ch ∈ (util.MD5HashStr stack).data, ch ∈ util.hexChars) ∧
    "stacktrace.hash" ∉
      (log.otlpDebugFields cfg now
        (facadeEntry component operation message err callFields)).map Prod.fst ∧
    "stacktrace.hash" ∉
      (log.otlpInfoFields cfg now
        (facadeEntry component operation message err callFields)).map Prod.fst := by
  have hhash : ("stacktrace.hash", util.MD5HashStr stack) ∈
      log.otlpWarnFields cfg now stack (facadeEntry component operation message err callFields) := by
    unfold log.otlpWarnFields log.generateOTLPFields facadeEntry
    cases err <;> cases hd : cfg.DefaultFields <;> simp [hstack, util.MD5HashStr]
  have hraw : ("stacktrace", stack) ∈
      log.otlpWarnFields cfg now stack (facadeEntry component operation message err callFields) := by
    unfold log.otlpWarnFields log.generateOTLPFields facadeEntry
    cases err <;> cases hd : cfg.DefaultFields <;> simp [hstack]
  have hnone : "stacktrace.hash" ∉
      (log.otlpDebugFields cfg now
        (facadeEntry component operation message err callFields)).map Prod.fst := by
    unfold log.otlpDebugFields log.generateOTLPFields facadeEntry
    cases err <;> cases hd : cfg.DefaultFields <;>
      · rw [hd] at hdef
        simp_all
  exact ⟨⟨hhash, hraw⟩, ⟨hhash, hraw⟩, ⟨hhash, hraw⟩,
    ⟨MD5Hash_ne_empty _, MD5Hash_length _, MD5Hash_hex _⟩, hnone, hnone⟩

/-- C4 witness: a concrete Warn call carries the digest and raw trace, and a
concrete Debug call carries no digest attribute. -/
theorem stacktrace_digest_by_severity_witness :
    ("stacktrace.hash", util.MD5HashStr "goroutine 1 [running]:") ∈
      log.otlpWarnFields
        { Service := ⟨"svc", "1.0.0"⟩, Mode := 0, SearchIndex := "svc", FlushInterval := 30,
          Timeout := 10, Port := "80", DefaultFields := none, hostname := "h" }
        "t" "goroutine 1 [running]:" (facadeEntry "comp" "op" "msg" none []) ∧
    "stacktrace.hash" ∉
      (log.otlpDebugFields
        { Service := ⟨"svc", "1.0.0"⟩, Mode := 0, SearchIndex := "svc", FlushInterval := 30,
          Timeout := 10, Port := "80", DefaultFields := none, hostname := "h" }
        "t" (facadeEntry "comp" "op" "msg" none [])).map Prod.fst := by
  have h := stacktrace_digest_by_severity
    { Service := ⟨"svc", "1.0.0"⟩, Mode := 0, SearchIndex := "svc", FlushInterval := 30,
      Timeout := 10, Port := "80", DefaultFields := none, hostname := "h" }
    "comp" "op" "msg" "t" "goroutine 1 [running]:" none []
    (by decide) (by decide) (by decide)
  exact ⟨h.1.1, h.2.2.2.2.1⟩

/-- C10: stack capture depends only on the severity, not on the presence of
an error value — a Warn, Error or Fatal call whose error argument is nil
still attaches both the raw stack trace and the stack-trace digest, while no
error attribute is emitted. -/
theorem stacktrace_without_error
    (cfg : Config) (component operation message now stack : String)
    (callFields : List (String × String))
    (hstack : stack ≠ "")
    (hcall : "error" ∉ callFields.map Prod.fst)
    (hdef : "error" ∉ (cfg.DefaultFields.getD []).map Prod.fst) :
    (("stacktrace.hash", util.MD5HashStr stack) ∈
        log.otlpWarnFields cfg now stack (facadeEntry component operation message none callFields) ∧
      ("stacktrace", stack) ∈
        log.otlpWarnFields cfg now stack (facadeEntry component operation message none callFields) ∧
      "error" ∉ (log.otlpWarnFields cfg now stack
          (facadeEntry component operation message none callFields)).map Prod.fst) ∧
    (("stacktrace.hash", util.MD5HashStr stack) ∈
        log.otlpErrorFields cfg now stack (facadeEntry component operation message none callFields) ∧
      ("stacktrace", stack) ∈
        log.otlpErrorFields cfg now stack (facadeEntry component operation message none callFields) ∧
      "error" ∉ (log.otlpErrorFields cfg now stack
          (facadeEntry component operation message none callFields)).map Prod.fst) ∧
    (("stacktrace.hash", util.MD5HashStr stack) ∈
        log.otlpFatalFields cfg now stack (facadeEntry component operation message none callFields) ∧
      ("stacktrace", stack) ∈
        log.otlpFatalFields cfg now stack (facadeEntry component operation message none callFields) ∧
      "error" ∉ (log.otlpFatalFields cfg now stack
          (facadeEntry component operation message none callFields)).map Prod.fst) := by
  have hhash : ("stacktrace.hash", util.MD5HashStr stack) ∈
      log.otlpWarnFields cfg now stack (facadeEntry component operation message none callFields) := by
    unfold log.otlpWarnFields log.generateOTLPFields facadeEntry
    cases hd : cfg.DefaultFields <;> simp [hstack, util.MD5HashStr]
  have hraw : ("stacktrace", stack) ∈
      log.otlpWarnFields cfg now stack (facadeEntry component operation message none callFields) := by
    unfold log.otlpWarnFields log.generateOTLPFields facadeEntry
    cases hd : cfg.DefaultFields <;> simp [hstack]
  have herr : "error" ∉ (log.otlpWarnFields cfg now stack
      (facadeEntry component operation message none callFields)).map Prod.fst := by
    unfold log.otlpWarnFields log.generateOTLPFields facadeEntry
    cases hd : cfg.DefaultFields <;>
      · rw [hd] at hdef
        simp_all [hstack]
  exact ⟨⟨hhash, hraw, herr⟩, ⟨hhash, hraw, herr⟩, ⟨hhash, hraw, herr⟩⟩

/-- C10 witness: a concrete Warn call with a nil error still carries the
digest and the raw trace, and emits no error attribute. -/
theorem stacktrace_without_error_witness :
    ("stacktrace.hash", util.MD5HashStr "goroutine 7 [running]:") ∈
      log.otlpWarnFields
        { Service := ⟨"svc", "1.0.0"⟩, Mode := 0, SearchIndex := "svc", FlushInterval := 30,
          Timeout := 10, Port := "80", DefaultFields := none, hostname := "h" }
        "t" "goroutine 7 [running]:" (facadeEntry "comp" "op" "msg" none [("k", "v")]) ∧
    "error" ∉
      (log.otlpWarnFields
        { Service := ⟨"svc", "1.0.0"⟩, Mode := 0, SearchIndex := "svc", FlushInterval := 30,
          Timeout := 10, Port := "80", DefaultFields := none, hostname := "h" }
        "t" "goroutine 7 [running]:"
        (facadeEntry "comp" "op" "msg" none [("k", "v")])).map Prod.fst := by
  have h := stacktrace_without_error
    { Service := ⟨"svc", "1.0.0"⟩, Mode := 0, SearchIndex := "svc", FlushInterval := 30,
      Timeout := 10, Port := "80", DefaultFields := none, hostname := "h" }
    "comp" "op" "msg" "t" "goroutine 7 [running]:" [("k", "v")]
    (by decide) (by decide) (by decide)
  exact ⟨h.1.1, h.1.2.2⟩

end ObsTheorems
